import Mathlib

/-!
Verification of the locking core of `django-locking` (`locking/models.py`).

Shallow embedding conventions:
* Timestamps are integers counting whole seconds; `now` stands for the value
  of `datetime.today()` at the moment an operation runs, and `interval` for
  `settings.LOCKING['time_until_expiration']`.
* Python's `(datetime.today() - self.locked_at).seconds` reads the *seconds
  component* of the normalised `timedelta`, i.e. the elapsed seconds reduced
  modulo 86400 (days are discarded); `timedelta` normalisation keeps that
  component in `[0, 86400)`, which for a positive divisor coincides with
  Lean's `Int.emod`.  We model it as `(now - t) % 86400`.
* A model instance together with its database row is a `LockableRecord`:
  `db` is the stored row, `mem` the in-memory handle (`self`).  The module's
  `update` helper issues one conditional `UPDATE ... WHERE pk = obj.pk` and
  then mirrors every keyword argument onto the instance with `setattr`; since
  the three lock columns are exactly the fields of `LockState`, it rebuilds
  both sides from the supplied values.
* A raised `ObjectLockedError` is an `Option ObjectLockedError` error flag
  returned next to the (unchanged) record state, and `save`'s guard returns
  `Except`; logging calls are ignored; the `isinstance(user, auth.User)`
  check of `lock_for` is outside the model because principals are `Nat`s.
-/

/-- Seconds in one day: the modulus of Python `timedelta` normalisation. -/
def secondsPerDay : Int := 86400

/-- The lock columns of `LockableModelFieldsMixin`: `locked_at` (nullable
timestamp), `locked_by` (nullable user reference, users being `Nat` ids) and
`hard_lock` (boolean, default `False`).  `modified_at` is independent of
locking and is not touched by the `update` path, so it is omitted. -/
structure LockState where
  locked_at : Option Int
  locked_by : Option Nat
  hard_lock : Bool
  deriving DecidableEq, Repr

/-- `LockableModelMethodsMixin.is_locked`: `locked_at` is a datetime and
`(datetime.today() - self.locked_at).seconds < time_until_expiration`. -/
def is_locked (s : LockState) (now interval : Int) : Bool :=
  match s.locked_at with
  | some t => decide ((now - t) % secondsPerDay < interval)
  | none => false

/-- `LockableModelMethodsMixin.lock_type`: `"hard"` or `"soft"` when
`is_locked`, Python `None` otherwise. -/
def lock_type (s : LockState) (now interval : Int) : Option String :=
  if is_locked s now interval then
    if s.hard_lock then some "hard" else some "soft"
  else
    none

/-- `LockableModelMethodsMixin.lock_seconds_remaining`:
`time_until_expiration - (datetime.today() - self.locked_at).seconds`.
When `locked_at` is `None` the subtraction raises `TypeError`, modelled as
`none`. -/
def lock_seconds_remaining (s : LockState) (now interval : Int) : Option Int :=
  match s.locked_at with
  | some t => some (interval - (now - t) % secondsPerDay)
  | none => none

/-- `LockableModelMethodsMixin.lock_applies_to`:
`self.is_locked and self.locked_by != user`. -/
def lock_applies_to (s : LockState) (user : Nat) (now interval : Int) : Bool :=
  is_locked s now interval && decide (s.locked_by ≠ some user)

/-- `LockableModelMethodsMixin.is_locked_by`: `user == self.locked_by`. -/
def is_locked_by (s : LockState) (user : Nat) : Bool :=
  decide (some user = s.locked_by)

/-- The single exception class of the module (`ObjectLockedError(IOError)`);
`lock_for`, `unlock_for` and `save` all raise it, with different messages. -/
inductive ObjectLockedError where
  | mk
  deriving DecidableEq, Repr

/-- A `LockableModel` instance paired with its stored row: `db` is the
database row reached through `filter(pk=obj.pk)`, `mem` the in-memory
instance `self`. -/
structure LockableRecord where
  db : LockState
  mem : LockState
  deriving DecidableEq, Repr

/-- The module-level `update(obj, **kwargs)` helper, called with the three
lock columns: one atomic `UPDATE` of the row keyed by `obj.pk`, then
`setattr(obj, k, v)` for each kwarg (none of the values is an
`ExpressionNode`), so row and instance both end up holding exactly the
supplied values. -/
def update (_obj : LockableRecord) (locked_at : Option Int) (locked_by : Option Nat)
    (hard_lock : Bool) : LockableRecord :=
  { db := ⟨locked_at, locked_by, hard_lock⟩, mem := ⟨locked_at, locked_by, hard_lock⟩ }

/-- `LockableModelMethodsMixin.lock_for(user, hard_lock)` run at time `now`:
raises `ObjectLockedError` when `self.lock_applies_to(user)`, else calls
`update(self, locked_at=datetime.today(), locked_by=user, hard_lock=hard_lock)`.
The returned record is the (unchanged) state when the error flag is set. -/
def lock_for (r : LockableRecord) (user : Nat) (hard_lock : Bool) (now interval : Int) :
    Option ObjectLockedError × LockableRecord :=
  if lock_applies_to r.mem user now interval then
    (some ObjectLockedError.mk, r)
  else
    (none, update r (some now) (some user) hard_lock)

/-- `LockableModelMethodsMixin.unlock`: unconditionally
`update(self, locked_at=None, locked_by=None, hard_lock=False)`. -/
def unlock (r : LockableRecord) : LockableRecord :=
  update r none none false

/-- `LockableModelMethodsMixin.unlock_for(user)`: delegates to `unlock` when
`self.is_locked_by(user)`, else raises `ObjectLockedError`.  It consults no
clock, so expiration plays no part in the decision. -/
def unlock_for (r : LockableRecord) (user : Nat) :
    Option ObjectLockedError × LockableRecord :=
  if is_locked_by r.mem user then
    (none, unlock r)
  else
    (some ObjectLockedError.mk, r)

/-- The write guard of `LockableModelMethodsMixin.save`: raises
`ObjectLockedError` when `self.lock_type == 'hard'`, otherwise falls through
to the framework save (the payload write itself, abstracted as `ok`). -/
def save (s : LockState) (now interval : Int) : Except ObjectLockedError Unit :=
  if lock_type s now interval = some "hard" then
    Except.error ObjectLockedError.mk
  else
    Except.ok ()

/-- The documented state invariant: `locked_at` and `locked_by` are both
present or both absent, and `hard_lock` is only `true` while a lock is set. -/
def lockInvariant (s : LockState) : Prop :=
  (s.locked_at = none ↔ s.locked_by = none) ∧ (s.hard_lock = true → s.locked_at ≠ none)

/-- C1: the claim's expiration clause fails on the code: five seconds more
than one day after acquisition, with a 600-second expiration interval,
`now − lockedAt = 86405 ≥ 600` and the claim demands status `Unlocked`, yet
`lock_type` yields `"soft"`, because `is_locked` compares the elapsed time
reduced modulo 86400 (Python `timedelta.seconds` discards whole days). -/
theorem C1_status_divergence :
    lock_type ⟨some 0, some 1, false⟩ 86405 600 = some "soft" ∧
    (600 : Int) ≤ 86405 - 0 := by
  constructor
  · decide
  · decide

/-- C9: the claim's formula fails on the code: exactly one day after
acquisition, with a 600-second expiration interval, the spec formula
`interval − (now − lockedAt) = 600 − 86400` is negative, yet
`lock_seconds_remaining` returns the full `600`, because the elapsed time is
reduced modulo 86400 (Python `timedelta.seconds`) before the subtraction. -/
theorem C9_seconds_remaining_divergence :
    lock_seconds_remaining ⟨some 0, some 1, false⟩ 86400 600 = some 600 ∧
    (600 : Int) - (86400 - 0) < 0 := by
  constructor
  · decide
  · decide

/-- C5: `unlock` always succeeds — it is a total function of the record —
and leaves `locked_at` and `locked_by` cleared and `hard_lock` false, in the
stored row and the in-memory instance alike, whoever held the lock and
whether or not it was hard or expired. -/
theorem C5_unlock_clears (r : LockableRecord) :
    (unlock r).db.locked_at = none ∧ (unlock r).db.locked_by = none ∧
    (unlock r).db.hard_lock = false ∧ (unlock r).mem.locked_at = none ∧
    (unlock r).mem.locked_by = none ∧ (unlock r).mem.hard_lock = false := by
  simp [unlock, update]

/-- C6: the self-exemption law: whenever the stored `locked_by` is the very
principal being tested, `lock_applies_to` returns `false`, for every clock
time, expiration interval, `locked_at` and `hard_lock` value. -/
theorem C6_self_exemption (s : LockState) (user : Nat) (now interval : Int)
    (h : s.locked_by = some user) :
    lock_applies_to s user now interval = false := by
  simp [lock_applies_to, h]

/-- C6 witness: a hard, fresh lock held by user 7 does not apply to user 7. -/
theorem C6_self_exemption_witness :
    lock_applies_to ⟨some 0, some 7, true⟩ 7 3 600 = false :=
  C6_self_exemption ⟨some 0, some 7, true⟩ 7 3 600 rfl

/-- C2: `lock_for` raises (with the record untouched, stored row and
in-memory fields alike) exactly on the branch where `lock_applies_to` holds;
otherwise it performs the one `update` that stores `locked_at = now`,
`locked_by = user`, `hard_lock = hard` and mirrors the same three values
into the in-memory instance. -/
theorem C2_lock_for_spec (r : LockableRecord) (user : Nat) (hard : Bool)
    (now interval : Int) :
    (lock_applies_to r.mem user now interval = true →
      lock_for r user hard now interval = (some ObjectLockedError.mk, r)) ∧
    (lock_applies_to r.mem user now interval = false →
      (lock_for r user hard now interval).1 = none ∧
      (lock_for r user hard now interval).2.db.locked_at = some now ∧
      (lock_for r user hard now interval).2.db.locked_by = some user ∧
      (lock_for r user hard now interval).2.db.hard_lock = hard ∧
      (lock_for r user hard now interval).2.mem = (lock_for r user hard now interval).2.db) := by
  constructor
  · intro h
    simp [lock_for, h]
  · intro h
    simp [lock_for, h, update]

/-- C2 witness: locking a free record for user 1 at `now = 5` succeeds and
stores timestamp, holder and hardness, mirrored in memory. -/
theorem C2_lock_for_witness :
    (lock_for ⟨⟨none, none, false⟩, ⟨none, none, false⟩⟩ 1 true 5 600).1 = none ∧
    (lock_for ⟨⟨none, none, false⟩, ⟨none, none, false⟩⟩ 1 true 5 600).2.db.locked_at = some 5 ∧
    (lock_for ⟨⟨none, none, false⟩, ⟨none, none, false⟩⟩ 1 true 5 600).2.db.locked_by = some 1 ∧
    (lock_for ⟨⟨none, none, false⟩, ⟨none, none, false⟩⟩ 1 true 5 600).2.db.hard_lock = true :=
  have h := (C2_lock_for_spec ⟨⟨none, none, false⟩, ⟨none, none, false⟩⟩ 1 true 5 600).2
    (by decide)
  ⟨h.1, h.2.1, h.2.2.1, h.2.2.2.1⟩

/-- C3: the `save` guard rejects exactly when the derived status is hard —
it inspects only `lock_type`, so the identity of the writer (holder or not)
cannot matter — and lets the write through whenever the status is soft or
unlocked. -/
theorem C3_save_guard (s : LockState) (now interval : Int) :
    (save s now interval = Except.error ObjectLockedError.mk ↔
      lock_type s now interval = some "hard") ∧
    (lock_type s now interval = some "soft" → save s now interval = Except.ok ()) ∧
    (lock_type s now interval = none → save s now interval = Except.ok ()) := by
  by_cases h : lock_type s now interval = some "hard"
  · refine ⟨by simp [save, h], ?_, ?_⟩ <;> intro h2 <;> rw [h2] at h <;> simp at h
  · exact ⟨by simp [save, h], fun _ => by simp [save, h], fun _ => by simp [save, h]⟩

/-- C3 witness: with a fresh lock held by user 1, `save` is rejected when the
lock is hard and accepted when it is soft. -/
theorem C3_save_guard_witness :
    save ⟨some 0, some 1, true⟩ 5 600 = Except.error ObjectLockedError.mk ∧
    save ⟨some 0, some 1, false⟩ 5 600 = Except.ok () :=
  ⟨(C3_save_guard ⟨some 0, some 1, true⟩ 5 600).1.mpr (by decide),
   (C3_save_guard ⟨some 0, some 1, false⟩ 5 600).2.1 (by decide)⟩

/-- C4: `unlock_for` delegates to `unlock` exactly when the raw identity
check `is_locked_by` holds, i.e. when the stored `locked_by` equals the
requesting principal; otherwise it raises and leaves the record untouched.
Neither `unlock_for` nor `is_locked_by` takes a clock, so the decision is
independent of expiration: a non-holder is refused even on a long-expired
lock. -/
theorem C4_unlock_for_spec (r : LockableRecord) (user : Nat) :
    (is_locked_by r.mem user = true ↔ r.mem.locked_by = some user) ∧
    (is_locked_by r.mem user = true →
      unlock_for r user = (none, unlock r)) ∧
    (is_locked_by r.mem user = false →
      unlock_for r user = (some ObjectLockedError.mk, r)) := by
  refine ⟨?_, ?_, ?_⟩
  · simp [is_locked_by, eq_comm]
  · intro h
    simp [unlock_for, h]
  · intro h
    simp [unlock_for, h]

/-- C4 witness: on a record whose lock (taken at time 0, long expired by any
clock) is held by user 1, `unlock_for` succeeds for user 1 and is refused for
user 2. -/
theorem C4_unlock_for_witness :
    unlock_for ⟨⟨some 0, some 1, true⟩, ⟨some 0, some 1, true⟩⟩ 1 =
      (none, unlock ⟨⟨some 0, some 1, true⟩, ⟨some 0, some 1, true⟩⟩) ∧
    unlock_for ⟨⟨some 0, some 1, true⟩, ⟨some 0, some 1, true⟩⟩ 2 =
      (some ObjectLockedError.mk, ⟨⟨some 0, some 1, true⟩, ⟨some 0, some 1, true⟩⟩) :=
  ⟨(C4_unlock_for_spec ⟨⟨some 0, some 1, true⟩, ⟨some 0, some 1, true⟩⟩ 1).2.1 (by decide),
   (C4_unlock_for_spec ⟨⟨some 0, some 1, true⟩, ⟨some 0, some 1, true⟩⟩ 2).2.2 (by decide)⟩

/-- C7: after a successful `lock_for` by `user` at time `t`, re-acquiring as
the same `user` at any later time `now2` while the lock is still unexpired
succeeds again (the lock never applies to its holder), and the stored
timestamp moves from `t` strictly up to `now2` — renewal by re-acquisition. -/
theorem C7_reacquire_refreshes (r r2 : LockableRecord) (user : Nat) (hard hard2 : Bool)
    (t now2 interval : Int)
    (hacq : lock_for r user hard t interval = (none, r2))
    (hlater : t < now2)
    (hunexpired : is_locked r2.mem now2 interval = true) :
    (lock_for r2 user hard2 now2 interval).1 = none ∧
    (lock_for r2 user hard2 now2 interval).2.mem.locked_at = some now2 ∧
    r2.mem.locked_at = some t ∧ t < now2 := by
  unfold lock_for at hacq
  by_cases hc : lock_applies_to r.mem user t interval = true
  · rw [if_pos hc] at hacq
    simp at hacq
  · simp at hc
    rw [if_neg (by simp [hc])] at hacq
    simp [update] at hacq
    subst hacq
    refine ⟨?_, ?_, by simp [update], hlater⟩ <;>
      simp [lock_for, lock_applies_to, update]

/-- C7 witness: user 1 locks a free record at `t = 0` (interval 600), then
re-locks it at `now2 = 5`, switching to a hard lock; the second acquisition
succeeds and the timestamp becomes 5. -/
theorem C7_reacquire_witness :
    (lock_for ⟨⟨some 0, some 1, false⟩, ⟨some 0, some 1, false⟩⟩ 1 true 5 600).1 = none ∧
    (lock_for ⟨⟨some 0, some 1, false⟩, ⟨some 0, some 1, false⟩⟩ 1 true 5 600).2.mem.locked_at =
      some 5 :=
  have h := C7_reacquire_refreshes ⟨⟨none, none, false⟩, ⟨none, none, false⟩⟩
    ⟨⟨some 0, some 1, false⟩, ⟨some 0, some 1, false⟩⟩ 1 false true 0 5 600
    (by decide) (by decide) (by decide)
  ⟨h.1, h.2.1⟩

/-- C8: each of `lock_for`, `unlock` and `unlock_for` preserves the state
invariant (lock timestamp and holder both present or both absent, and
`hard_lock` only set while a lock is present), on the stored row and the
in-memory instance, whichever branch is taken. -/
theorem C8_invariant_preserved (r : LockableRecord) (user : Nat) (hard : Bool)
    (now interval : Int)
    (hdb : lockInvariant r.db) (hmem : lockInvariant r.mem) :
    (lockInvariant (lock_for r user hard now interval).2.db ∧
     lockInvariant (lock_for r user hard now interval).2.mem) ∧
    (lockInvariant (unlock r).db ∧ lockInvariant (unlock r).mem) ∧
    (lockInvariant (unlock_for r user).2.db ∧ lockInvariant (unlock_for r user).2.mem) := by
  have hfresh : ∀ (ts : Int) (u : Nat) (b : Bool), lockInvariant ⟨some ts, some u, b⟩ :=
    fun ts u b => ⟨by simp, fun _ => by simp⟩
  have hclear : lockInvariant ⟨none, none, false⟩ :=
    ⟨by simp, fun h => by simp at h⟩
  refine ⟨?_, ⟨hclear, hclear⟩, ?_⟩
  · unfold lock_for
    split
    · exact ⟨hdb, hmem⟩
    · exact ⟨hfresh now user hard, hfresh now user hard⟩
  · unfold unlock_for
    split
    · exact ⟨hclear, hclear⟩
    · exact ⟨hdb, hmem⟩

/-- C8 witness: starting from a record holding a hard lock by user 1 (which
satisfies the invariant), the state after `unlock` still satisfies it. -/
theorem C8_invariant_witness :
    lockInvariant (unlock ⟨⟨some 0, some 1, true⟩, ⟨some 0, some 1, true⟩⟩).mem :=
  (C8_invariant_preserved ⟨⟨some 0, some 1, true⟩, ⟨some 0, some 1, true⟩⟩ 1 false 5 600
    ⟨by simp, fun _ => by simp⟩ ⟨by simp, fun _ => by simp⟩).2.1.2

/-- C10: whenever `locked_at` is absent or `is_locked` computes to false
(the derived status is unlocked, e.g. the stored lock has lapsed), `save`
succeeds — for every stored `hard_lock` value, including a stray `true` on
an otherwise unlocked record — because the guard keys on `lock_type`, never
on the raw `hard_lock` column. -/
theorem C10_stale_hard_lock (s : LockState) (now interval : Int)
    (h : s.locked_at = none ∨ is_locked s now interval = false) :
    save s now interval = Except.ok () := by
  have hl : is_locked s now interval = false := by
    cases h with
    | inl h0 => simp [is_locked, h0]
    | inr h0 => exact h0
  simp [save, lock_type, hl]

/-- C10 witness: a record still carrying `hard_lock = true` whose lock
(taken at time 0, interval 600) has lapsed by `now = 700` saves fine. -/
theorem C10_stale_hard_lock_witness :
    save ⟨some 0, some 1, true⟩ 700 600 = Except.ok () :=
  C10_stale_hard_lock ⟨some 0, some 1, true⟩ 700 600 (Or.inr (by decide))
